import Mathlib

/-!
Verification development for an excerpt of the NeMo repository: shallow
embeddings of the rope-scaling helper, the cross-attention transformer
layer/block (gating, fusion schedule, FP8 context selection), the partially
trainable embedding, the Gemma prompt formatter, the speech-to-text LLM
drivers, and the contrastive embedding loss / dataset builder, together with
theorems settling the spec's claims about them.
-/

namespace NeMo

/-! ## Rope scaling (`apply_rope_scaling`, language.py) -/

/-- Shallow embedding of `apply_rope_scaling` (language.py 942-966), read
elementwise over one inverse-frequency entry: `torch.where` becomes `if`.
The smoothing is applied to `inv_freq_llama` (the result of the first
`torch.where`), exactly as in the source. -/
noncomputable def apply_rope_scaling (inv_freq factor low_freq_factor high_freq_factor
    old_context_len : ℝ) : ℝ :=
  let low_freq_wavelen := old_context_len / low_freq_factor
  let high_freq_wavelen := old_context_len / high_freq_factor
  let wavelen := 2 * Real.pi / inv_freq
  let inv_freq_llama := if wavelen > low_freq_wavelen then inv_freq / factor else inv_freq
  let smooth_factor :=
    (old_context_len / wavelen - low_freq_factor) / (high_freq_factor - low_freq_factor)
  let smoothed_inv_freq :=
    (1 - smooth_factor) * inv_freq_llama / factor + smooth_factor * inv_freq_llama
  let is_medium_freq := ¬ (wavelen < high_freq_wavelen) ∧ ¬ (wavelen > low_freq_wavelen)
  if is_medium_freq then smoothed_inv_freq else inv_freq_llama

/-! ## Cross-attention transformer layer (`CrossAttentionTransformerLayer.forward`) -/

/-- Elementwise gating of an output-with-bias tuple: the source's
`tuple(g * output if output is not None else None for output in t)`,
with the tuple modelled as a list of optional (elementwise) values. -/
def gateOutputTuple (g : ℝ) (t : List (Option ℝ)) : List (Option ℝ) :=
  t.map fun output => output.map fun x => g * x

/-- Shallow embedding of `CrossAttentionTransformerLayer.forward`
(language.py 463-540), elementwise over hidden states modelled as one real
number; the submodules (layernorms, cross attention, bias-dropout-add
handlers, MLP) are passed in as functions. NOTE: exactly as in the source,
`_gate_ffn` is computed (line 515) but the MLP output tuple is gated with
`_gate_attn` (line 519). -/
noncomputable def crossAttentionTransformerLayer_forward
    (gate_attn gate_ffn : ℝ)
    (pre_cross_attn_layernorm : ℝ → ℝ)
    (cross_attention : ℝ → List (Option ℝ))
    (cross_attn_bda : List (Option ℝ) → ℝ → ℝ)
    (pre_mlp_layernorm : ℝ → ℝ)
    (mlp : ℝ → List (Option ℝ))
    (mlp_bda : List (Option ℝ) → ℝ → ℝ)
    (hidden_states : ℝ) : ℝ × Option ℝ :=
  let residual := hidden_states
  let pre_cross_attn_layernorm_output := pre_cross_attn_layernorm hidden_states
  let attention_output_with_bias := cross_attention pre_cross_attn_layernorm_output
  let _gate_attn := Real.tanh gate_attn
  let attention_gated := gateOutputTuple _gate_attn attention_output_with_bias
  let hidden_states1 := cross_attn_bda attention_gated residual
  let residual2 := hidden_states1
  let pre_mlp_layernorm_output := pre_mlp_layernorm hidden_states1
  let mlp_output_with_bias := mlp pre_mlp_layernorm_output
  let _gate_ffn := Real.tanh gate_ffn
  let mlp_gated := gateOutputTuple _gate_attn mlp_output_with_bias
  let hidden_states2 := mlp_bda mlp_gated residual2
  (hidden_states2, none)

/-- The forward pass as the claim (and the source's own `_gate_ffn`
assignment and the dummy layer's docstring) describe it: identical to
`crossAttentionTransformerLayer_forward` except that the MLP output tuple is
gated with `tanh(gate_ffn)`. -/
noncomputable def crossAttentionTransformerLayer_forward_claimed
    (gate_attn gate_ffn : ℝ)
    (pre_cross_attn_layernorm : ℝ → ℝ)
    (cross_attention : ℝ → List (Option ℝ))
    (cross_attn_bda : List (Option ℝ) → ℝ → ℝ)
    (pre_mlp_layernorm : ℝ → ℝ)
    (mlp : ℝ → List (Option ℝ))
    (mlp_bda : List (Option ℝ) → ℝ → ℝ)
    (hidden_states : ℝ) : ℝ × Option ℝ :=
  let residual := hidden_states
  let pre_cross_attn_layernorm_output := pre_cross_attn_layernorm hidden_states
  let attention_output_with_bias := cross_attention pre_cross_attn_layernorm_output
  let _gate_attn := Real.tanh gate_attn
  let attention_gated := gateOutputTuple _gate_attn attention_output_with_bias
  let hidden_states1 := cross_attn_bda attention_gated residual
  let residual2 := hidden_states1
  let pre_mlp_layernorm_output := pre_mlp_layernorm hidden_states1
  let mlp_output_with_bias := mlp pre_mlp_layernorm_output
  let _gate_ffn := Real.tanh gate_ffn
  let mlp_gated := gateOutputTuple _gate_ffn mlp_output_with_bias
  let hidden_states2 := mlp_bda mlp_gated residual2
  (hidden_states2, none)

/-! ## Cross-attention transformer block (`CrossAttentionTransformerBlock`) -/

/-- A slot of `self.xattn_and_dummy_layers`: either a
`CrossAttentionTransformerLayer` built with `layer_number = i + 1`, or a
`DummyCrossAttentionTransformerLayer`. -/
inductive XattnSlot where
  | xattnLayer (layer_number : ℕ)
  | dummyLayer
deriving DecidableEq

/-- The construction loop of `CrossAttentionTransformerBlock.__init__`
(language.py 268-302): for each `i` below `num_layers_per_pipeline_rank`, a
cross-attention layer (with `layer_number = i + 1`) when
`i ∈ fusion_schedule`, else a dummy layer. -/
def buildXattnAndDummyLayers (fusion_schedule : List ℕ)
    (num_layers_per_pipeline_rank : ℕ) : List XattnSlot :=
  (List.range num_layers_per_pipeline_rank).map fun i =>
    if i ∈ fusion_schedule then .xattnLayer (i + 1) else .dummyLayer

/-- What a call of one `xattn_and_dummy_layers` slot evaluates to before the
two-target assignment `hidden_states, context = xattn_layer(...)`
(language.py 388): `CrossAttentionTransformerLayer.forward` returns the pair
`(output, None)` (language.py 540), while
`DummyCrossAttentionTransformerLayer.__call__` returns a bare Tensor
(language.py 546-552) — it has no `, None`. -/
inductive LayerCallResult (H : Type*) where
  | tupleReturn (hidden_states : H) (context : Option H)
  | tensorReturn (hidden_states : H)

section Block

variable {H C : Type*}

/-- Calling one slot: a cross-attention layer runs its forward (keyed by its
`layer_number`) on the hidden states and the cache it is given and returns
the tuple `(output, None)`; a `DummyCrossAttentionTransformerLayer.__call__`
(language.py 546-552) returns its hidden-states input as a bare Tensor. -/
def callXattnSlot (xattnForward : ℕ → C → H → H) : XattnSlot → C → H → LayerCallResult H
  | .xattnLayer layer_number, xattn_cache, hidden_states =>
      .tupleReturn (xattnForward layer_number xattn_cache hidden_states) none
  | .dummyLayer, _, hidden_states => .tensorReturn hidden_states

/-- Python's two-target assignment `hidden_states, context = r`
(language.py 388). A pair unpacks as written. A bare `[s, b, h]` Tensor is
unpacked by iterating its dim-0 slices, which raises `ValueError` unless
`s = 2` (and otherwise binds two `[b, h]` slices, not the hidden states);
`unpackTensor` supplies that iteration for the abstract hidden-state type,
`none` standing for the raise. -/
def unpackCallResult (unpackTensor : H → Option (H × H)) :
    LayerCallResult H → Except String (H × Option H)
  | .tupleReturn hidden_states context => .ok (hidden_states, context)
  | .tensorReturn t =>
      match unpackTensor t with
      | some s => .ok (s.1, some s.2)
      | none => .error "ValueError: unpacking a bare Tensor into (hidden_states, context)"

/-- The layer loop of `CrossAttentionTransformerBlock.forward` in the
non-CUDA-graph path (language.py 380-403): for `l_no` running over
`zip(self.layers, self.xattn_and_dummy_layers)`, the cross-attention (or
dummy) slot is called with `xattn_caches[l_no]` and its result unpacked into
`hidden_states, context` — raising on a dummy slot's bare-Tensor return
unless the Tensor happens to unpack into two — and then the text-only layer
runs (a `TransformerLayer`, whose `(output, context)` pair unpacks as
written). -/
def crossAttentionBlockLoop (xattnForward : ℕ → C → H → H)
    (unpackTensor : H → Option (H × H)) (xattn_caches : ℕ → C) :
    List (H → H) → List XattnSlot → ℕ → H → Except String H
  | layer :: layers, slot :: slots, l_no, hidden_states =>
      match unpackCallResult unpackTensor
          (callXattnSlot xattnForward slot (xattn_caches l_no) hidden_states) with
      | .error e => .error e
      | .ok (hidden_states1, _context) =>
          crossAttentionBlockLoop xattnForward unpackTensor xattn_caches layers slots
            (l_no + 1) (layer hidden_states1)
  | _, _, _, hidden_states => .ok hidden_states

/-- `CrossAttentionTransformerBlock` build-then-forward: the slots are built
from the fusion schedule over as many indices as there are text layers, and
the forward loop interleaves them with the text layers starting at index 0. -/
def crossAttentionBlock_forward (xattnForward : ℕ → C → H → H)
    (unpackTensor : H → Option (H × H)) (fusion_schedule : List ℕ)
    (xattn_caches : ℕ → C) (layers : List (H → H)) (hidden_states : H) :
    Except String H :=
  crossAttentionBlockLoop xattnForward unpackTensor xattn_caches layers
    (buildXattnAndDummyLayers fusion_schedule layers.length) 0 hidden_states

/-- The fusion schedule as claim C2 words it: for each index `i` in order,
run the cross-attention forward (with `xattn_caches[i]` and layer number
`i + 1`) exactly when `i` is in the fusion schedule — the dummy slot passing
its hidden-states input through unchanged — then the text layer. -/
def fusionScheduleRun (xattnForward : ℕ → C → H → H)
    (fusion_schedule : List ℕ) (xattn_caches : ℕ → C) :
    List (H → H) → ℕ → H → H
  | layer :: layers, i, hidden_states =>
      fusionScheduleRun xattnForward fusion_schedule xattn_caches layers (i + 1)
        (layer (if i ∈ fusion_schedule then
            xattnForward (i + 1) (xattn_caches i) hidden_states
          else hidden_states))
  | [], _, hidden_states => hidden_states

end Block

/-! ## FP8 context selection (`CrossAttentionTransformerBlock.forward`) -/

/-- The two supported `transformer_engine` FP8 formats. -/
inductive Fp8Format where
  | E4M3
  | HYBRID
deriving DecidableEq

/-- The context the transformer layers run inside: `nullcontext()` or
`transformer_engine.pytorch.fp8_autocast(...)` with the selected format. -/
inductive Fp8Context where
  | nullcontext
  | fp8_autocast (format : Fp8Format)
deriving DecidableEq

/-- Python truthiness of `config.fp8 : Optional[str]`: `None` and the empty
string are falsy. -/
def fp8Truthy : Option String → Bool
  | none => false
  | some s => !(s == "")

/-- The FP8 branch of `CrossAttentionTransformerBlock.forward`
(language.py 351-373): a truthy `config.fp8` other than `"e4m3"` or
`"hybrid"` raises `ValueError`; otherwise the context is selected. -/
def selectFp8Context (fp8 : Option String) : Except String Fp8Context :=
  match fp8 with
  | none => .ok .nullcontext
  | some s =>
      if s == "" then .ok .nullcontext
      else if s == "e4m3" then .ok (.fp8_autocast .E4M3)
      else if s == "hybrid" then .ok (.fp8_autocast .HYBRID)
      else .error "E4M3 and HYBRID are the only supported FP8 formats."

section Fp8Block

variable {H : Type*}

/-- Running the transformer layers in order on the hidden states. -/
def runLayers (layers : List (H → H)) (hidden_states : H) : H :=
  layers.foldl (fun h layer => layer h) hidden_states

/-- `CrossAttentionTransformerBlock.forward` reduced to its FP8 aspect: the
FP8 context is selected (possibly raising) before the layer loop runs; on a
raise no layer executes. Returns the context the layers ran inside together
with the final hidden states. -/
def crossAttentionBlock_forward_fp8 (fp8 : Option String)
    (layers : List (H → H)) (hidden_states : H) : Except String (Fp8Context × H) :=
  match selectFp8Context fp8 with
  | .error e => .error e
  | .ok fp8_context => .ok (fp8_context, runLayers layers hidden_states)

end Fp8Block

/-! ## Partially trainable embedding
(`CrossAttentionTextModel.get_partially_trainable_embedding`) -/

/-- `mask_orig = torch.where(x >= self.num_frozen_embeddings, xz, oz)`
(language.py 252), elementwise over one integer token id. -/
def mask_orig (num_frozen_embeddings x : ℤ) : ℤ :=
  if x ≥ num_frozen_embeddings then 0 else 1

/-- `mask_new = torch.where(x < self.num_frozen_embeddings, xz, oz)`
(language.py 253), elementwise over one integer token id. -/
def mask_new (num_frozen_embeddings x : ℤ) : ℤ :=
  if x < num_frozen_embeddings then 0 else 1

/-- Shallow embedding of `get_partially_trainable_embedding`
(language.py 243-257), elementwise over one token id, with the frozen
(`self.embedding`) and learnable (`self.learnable_embedding`) tables passed
in as functions; `self._thresh = num_frozen_embeddings - 1`
(language.py 133). -/
def get_partially_trainable_embedding (num_frozen_embeddings : ℤ)
    (embedding learnable_embedding : ℤ → ℤ) (x : ℤ) : ℤ :=
  let thresh := num_frozen_embeddings - 1
  let x_orig := min x thresh
  let x_new := max x (thresh + 1) - num_frozen_embeddings
  embedding x_orig * mask_orig num_frozen_embeddings x
    + learnable_embedding x_new * mask_new num_frozen_embeddings x

/-! ## Gemma prompt formatter (`gemma.py`) -/

def GEMMA_BOS : String := "<start_of_turn>"

def GEMMA_END_OF_TURN : String := "<end_of_turn>"

def GEMMA_NL : String := "\n\n"

/-- `GemmaPromptFormatter.OUTPUT_ROLE` (gemma.py 35). -/
def gemmaOutputRole : String := "assistant"

/-- `GemmaPromptFormatter.INSERT_BOS` (gemma.py 36). -/
def gemmaInsertBos : Bool := true

/-- `GemmaPromptFormatter.INSERT_EOS` (gemma.py 37). -/
def gemmaInsertEos : Bool := true

/-- The `"user"` entry's template f-string of `GemmaPromptFormatter.TEMPLATE`
(gemma.py 40). -/
def gemmaUserTemplate : String :=
  GEMMA_BOS ++ "user\n|message|" ++ GEMMA_END_OF_TURN ++ "\n" ++ GEMMA_BOS ++ "model\n"

/-- The `OUTPUT_ROLE` entry's template f-string of
`GemmaPromptFormatter.TEMPLATE` (gemma.py 47). -/
def gemmaAssistantTemplate : String :=
  "|message|" ++ GEMMA_END_OF_TURN ++ "\n"

/-- The roles that are keys of `GemmaPromptFormatter.TEMPLATE`
(gemma.py 38-52): `"user"` and `OUTPUT_ROLE`. -/
def gemmaTemplateRoles : List String := ["user", gemmaOutputRole]

/-- Modelled from the spec: the `PromptFormatter.encode_dialog` rendering
machinery is not in the excerpt; per the spec's description of prompt
template formatting, a single-`|message|`-slot turn template whose text is
`pre ++ "|message|" ++ post` renders a message by substituting its text for
the placeholder, giving `pre ++ message ++ post`. -/
def renderMessageSlot (pre post message : String) : String :=
  pre ++ message ++ post

/-- The fields of a lhotse cut that `gemma1` reads: the custom fields
`context`, `question` and `system_prompt` (absent when `has_custom` is
false), `default_context`, and `supervisions[0].text`. -/
structure LhotseCut where
  context : Option String
  question : Option String
  default_context : String
  system_prompt : Option String
  supervision_text : Option String
deriving DecidableEq

/-- One turn handed to `encode_dialog`: a role and its slot assignments. -/
structure PromptTurn where
  role : String
  slots : List (String × String)
deriving DecidableEq

/-- The context selection of `gemma1` (gemma.py 62-67): the cut's custom
`context` if present, else its custom `question` if present, else its
`default_context`. -/
def gemma1SelectContext (cut : LhotseCut) : String :=
  match cut.context with
  | some context => context
  | none =>
      match cut.question with
      | some question => question
      | none => cut.default_context

/-- The turn list `gemma1` builds for one cut (gemma.py 69-75): a
`system_and_user` turn when the cut has a custom `system_prompt`, else a
`user` turn; then an `assistant` turn exactly when `supervisions[0].text`
is not `None`. -/
def gemma1Turns (cut : LhotseCut) : List PromptTurn :=
  let context := gemma1SelectContext cut
  let first :=
    match cut.system_prompt with
    | some system_prompt =>
        { role := "system_and_user",
          slots := [("system", system_prompt), ("message", context)] }
    | none => { role := "user", slots := [("message", context)] }
  match cut.supervision_text with
  | some answer => [first, { role := "assistant", slots := [("message", answer)] }]
  | none => [first]

/-! ## Speech-to-text LLM drivers (`slm/api.py`) -/

/-- The externally visible steps of the three drivers in `slm/api.py`, in
source order. -/
inductive SlmApiStep where
  | disableTypechecks
  | resolveConfig
  | buildModel
  | buildData
  | setupOptimizer
  | setupTrainer
  | setupPeft
  | setupLoggerAndResume
  | callFinetune
  | callSetup
  | callTrainerValidate
  | callTrainerPredict
  | importPdb
  | callPdbSetTrace
  | returnLogDir
deriving DecidableEq

/-- The step trace of `speetch_to_text_llm_train` (api.py 22-75). -/
def speetch_to_text_llm_train_trace : List SlmApiStep :=
  [.disableTypechecks, .resolveConfig, .buildModel, .buildData, .setupOptimizer,
   .setupTrainer, .setupPeft, .setupLoggerAndResume, .callFinetune, .returnLogDir]

/-- The step trace of `speetch_to_text_llm_validate` (api.py 78-137):
`trainer.validate`, then `import pdb; pdb.set_trace()`, then the return of
`app_state.log_dir`. -/
def speetch_to_text_llm_validate_trace : List SlmApiStep :=
  [.disableTypechecks, .resolveConfig, .buildModel, .buildData, .setupOptimizer,
   .setupTrainer, .setupPeft, .setupLoggerAndResume, .callSetup, .callTrainerValidate,
   .importPdb, .callPdbSetTrace, .returnLogDir]

/-- The step trace of `speetch_to_text_llm_generate` (api.py 140-197). -/
def speetch_to_text_llm_generate_trace : List SlmApiStep :=
  [.disableTypechecks, .resolveConfig, .buildModel, .buildData, .setupOptimizer,
   .setupTrainer, .setupPeft, .setupLoggerAndResume, .callSetup, .callTrainerPredict,
   .returnLogDir]

/-! ## Contrastive embedding loss (`MegatronGPTEmbeddingModel.loss_func`) -/

/-- A hidden-state vector (one row of the output tensor). -/
abbrev Vec := List ℝ

/-- Elementwise product summed: the dot product underlying cosine
similarity. -/
def dotProduct (a b : Vec) : ℝ := (List.zipWith (· * ·) a b).sum

/-- `torch.norm(v, dim=-1)`: the Euclidean norm. -/
noncomputable def l2norm (v : Vec) : ℝ := Real.sqrt ((v.map fun x => x * x).sum)

/-- The `eps` of `torch.nn.functional.cosine_similarity`, 1e-8. -/
noncomputable def cosineEps : ℝ := 1 / 100000000

/-- `torch.nn.functional.cosine_similarity(a, b, dim=-1)`:
`a·b / max(‖a‖₂·‖b‖₂, eps)`. -/
noncomputable def cosine_similarity (a b : Vec) : ℝ :=
  dotProduct a b / max (l2norm a * l2norm b) cosineEps

/-- `v / torch.norm(v, dim=-1, keepdim=True)`. -/
noncomputable def l2normalize (v : Vec) : Vec := v.map fun x => x / l2norm v

/-- Every third element of a list starting from its head: the core of
Python's stride-3 slicing. -/
def everyThird : List α → List α
  | [] => []
  | [x] => [x]
  | [x, _] => [x]
  | x :: _ :: _ :: rest => x :: everyThird rest

/-- Python's `l[offset::3]`. -/
def strideSlice3 (offset : ℕ) (l : List α) : List α := everyThird (l.drop offset)

/-- `eos_tensors = output_tensor[loss_mask, idx, :]` with
`idx = torch.arange(output_tensor.shape[1])`
(megatron_gpt_embedding_model.py 225-226): for each column `j` of the batch
dimension, the hidden state at sequence position `loss_mask[j]`. -/
def gatherEosTensors (num_columns : ℕ) (loss_mask : ℕ → ℕ)
    (output_tensor : ℕ → ℕ → Vec) : List Vec :=
  (List.range num_columns).map fun j => output_tensor (loss_mask j) j

/-- `torch.nn.functional.cross_entropy(cs, zeros)` for a two-column logit
matrix against target class 0, with the default mean reduction: the mean
over rows of `-log(exp c₀ / (exp c₀ + exp c₁))`. -/
noncomputable def crossEntropyTargetZero (cs : List (ℝ × ℝ)) : ℝ :=
  ((cs.map fun row => -Real.log (Real.exp row.1 / (Real.exp row.1 + Real.exp row.2))).sum)
    / cs.length

/-- Shallow embedding of `MegatronGPTEmbeddingModel.loss_func`
(megatron_gpt_embedding_model.py 224-257) on the `num_soft_negatives == 0`
path (the other path samples soft negatives with `torch.multinomial` and is
outside this claim): gather the EOS hidden states, slice them at stride-3
offsets 0/1/2 into query, positive and negative rows, compute the
temperature-scaled cosine similarities (the positive one on the
L2-normalized query/positive rows, as the source does after normalizing),
and take the cross-entropy of the two-column matrix against class 0.
Returns `(loss, query_hs, pos_doc_hs)` as the source does. -/
noncomputable def loss_func (temperature : ℝ) (num_columns : ℕ) (loss_mask : ℕ → ℕ)
    (output_tensor : ℕ → ℕ → Vec) : ℝ × List Vec × List Vec :=
  let eos_tensors := gatherEosTensors num_columns loss_mask output_tensor
  let query_hs := strideSlice3 0 eos_tensors
  let pos_doc_hs := strideSlice3 1 eos_tensors
  let neg_doc_hs := strideSlice3 2 eos_tensors
  let neg_cs := List.zipWith
    (fun q n => cosine_similarity q n * (1 / temperature)) query_hs neg_doc_hs
  let query_hs_n := query_hs.map l2normalize
  let pos_doc_hs_n := pos_doc_hs.map l2normalize
  let pos_cs := List.zipWith
    (fun q p => cosine_similarity q p * (1 / temperature)) query_hs_n pos_doc_hs_n
  let cs := List.zip pos_cs neg_cs
  (crossEntropyTargetZero cs, query_hs_n, pos_doc_hs_n)

/-- A batch of examples, each a (query, positive document, negative
document) triple of hidden states, laid out in that order along the batch
dimension: the layout the claim describes. -/
def flattenTriples (examples : List (Vec × Vec × Vec)) : List Vec :=
  examples.flatMap fun e => [e.1, e.2.1, e.2.2]

/-- The loss as the claim words it: per example, temperature-scaled cosine
similarities (query, positive) and (query, negative), the cross-entropy of
the two-column matrix [positive, negative] against class 0, and the
L2-normalized query and positive-document embeddings. -/
noncomputable def contrastiveLossSpec (temperature : ℝ)
    (examples : List (Vec × Vec × Vec)) : ℝ × List Vec × List Vec :=
  let pos_cs := examples.map fun e => cosine_similarity e.1 e.2.1 * (1 / temperature)
  let neg_cs := examples.map fun e => cosine_similarity e.1 e.2.2 * (1 / temperature)
  let cs := List.zip pos_cs neg_cs
  (crossEntropyTargetZero cs,
   examples.map fun e => l2normalize e.1,
   examples.map fun e => l2normalize e.2.1)

/-! ## Dataset construction (`MegatronGPTEmbeddingModel._build_dataset`) -/

/-- A config value that is or is not an OmegaConf `ListConfig` (the
`isinstance(..., ListConfig)` checks). -/
inductive MaybeListConfig (α : Type) where
  | listConfig (items : List α)
  | otherConfig
deriving DecidableEq

/-- The fields of `data_cfg` that `_build_dataset` reads. -/
structure EmbeddingDataCfg where
  file_names : MaybeListConfig String
  concat_sampling_probabilities : Option (MaybeListConfig ℚ)
  global_batch_size : ℕ
  max_seq_length : ℕ

/-- The distinct `ValueError`s `_build_dataset` can raise
(megatron_gpt_embedding_model.py 50, 58, 66, 79). -/
inductive BuildDatasetError where
  | fileNamesNotAList
  | badConcatSamplingProbabilities
  | concatProbsLengthMismatch
  | badMaxSteps
deriving DecidableEq

/-- The fields of a constructed `GPTEmbeddingDataset` this claim is about. -/
structure GPTEmbeddingDatasetModel where
  file_path : String
  max_seq_length : ℕ
  max_num_samples : Option ℕ
deriving DecidableEq

/-- What `_build_dataset` returns: one `BlendableDataset` (its per-file
datasets, its weights and its blended size) when `is_train`, else the list
of per-file datasets. -/
inductive BuildDatasetResult where
  | blendable (datasets : List GPTEmbeddingDatasetModel) (weights : List ℚ) (size : ℕ)
  | perFile (datasets : List GPTEmbeddingDatasetModel)
deriving DecidableEq

/-- The `max_seq_length` clamp (megatron_gpt_embedding_model.py 89-96):
with `position_embedding_type` unset or `'learned_absolute'`, a
`max_seq_length` above `max_position_embeddings` is lowered to it. -/
def adjusted_max_seq_length (position_embedding_type : Option String)
    (max_seq_length max_position_embeddings : ℕ) : ℕ :=
  if (position_embedding_type = none ∨ position_embedding_type = some "learned_absolute")
      ∧ max_position_embeddings < max_seq_length
  then max_position_embeddings else max_seq_length

/-- Shallow embedding of `MegatronGPTEmbeddingModel._build_dataset`
(megatron_gpt_embedding_model.py 45-127). The out-of-excerpt helper
`get_datasets_weights_and_num_samples` is passed in abstractly as
`getWeightsAndNumSamples`, taking the interleaved weight/file list and the
requested sample counts and returning per-dataset sample counts;
`x[0]`-indexing of its result is modelled with `headD 0`. -/
def _build_dataset
    (getWeightsAndNumSamples : List (ℚ ⊕ String) → List ℕ → List (List ℕ))
    (data_cfg : EmbeddingDataCfg)
    (position_embedding_type : Option String) (max_position_embeddings : ℕ)
    (trainer_max_steps : Option ℤ) (is_train : Bool) :
    Except BuildDatasetError BuildDatasetResult :=
  match data_cfg.file_names with
  | .otherConfig => .error .fileNamesNotAList
  | .listConfig file_names =>
      let max_seq_length :=
        adjusted_max_seq_length position_embedding_type data_cfg.max_seq_length
          max_position_embeddings
      if is_train then
        match data_cfg.concat_sampling_probabilities with
        | none => .error .badConcatSamplingProbabilities
        | some .otherConfig => .error .badConcatSamplingProbabilities
        | some (.listConfig probs) =>
            if probs.length ≠ file_names.length then .error .concatProbsLengthMismatch
            else
              let data_prefix := (probs.zip file_names).flatMap fun wf =>
                [Sum.inl wf.1, Sum.inr wf.2]
              match trainer_max_steps with
              | none => .error .badMaxSteps
              | some max_steps =>
                  if max_steps ≤ 0 then .error .badMaxSteps
                  else
                    let num_train_samples := [max_steps.toNat * data_cfg.global_batch_size]
                    let num_train_samples_per_dataset :=
                      getWeightsAndNumSamples data_prefix num_train_samples
                    let num_train_samples_after_blend :=
                      (num_train_samples_per_dataset.map fun x => x.headD 0).sum
                    let datasets := (file_names.zip num_train_samples_per_dataset).map
                      fun fn => { file_path := fn.1, max_seq_length := max_seq_length,
                                  max_num_samples := some (fn.2.headD 0) }
                    .ok (.blendable datasets probs num_train_samples_after_blend)
      else
        let datasets := file_names.map fun f =>
          { file_path := f, max_seq_length := max_seq_length, max_num_samples := none }
        .ok (.perFile datasets)

/-! ## Theorems -/

/-- Claim C8: the validation driver `speetch_to_text_llm_validate`
unconditionally invokes `pdb.set_trace()` after `trainer.validate` completes
and before returning `app_state.log_dir`, so every call of the validation
entry point halts waiting for debugger input; the train and generate drivers
have no such stop. -/
theorem speetch_to_text_llm_validate_pdb_stop :
    SlmApiStep.callPdbSetTrace ∈ speetch_to_text_llm_validate_trace
    ∧ speetch_to_text_llm_validate_trace.indexOf SlmApiStep.callTrainerValidate
        < speetch_to_text_llm_validate_trace.indexOf SlmApiStep.callPdbSetTrace
    ∧ speetch_to_text_llm_validate_trace.indexOf SlmApiStep.callPdbSetTrace
        < speetch_to_text_llm_validate_trace.indexOf SlmApiStep.returnLogDir
    ∧ SlmApiStep.callPdbSetTrace ∉ speetch_to_text_llm_train_trace
    ∧ SlmApiStep.callPdbSetTrace ∉ speetch_to_text_llm_generate_trace := by
  decide

/-- Claim C10: in `get_partially_trainable_embedding`, for every integer
token id the two selection masks are complementary (exactly one of them is
1), and the returned embedding equals the frozen word embedding of the id
when `id < num_frozen_embeddings`, and the learnable embedding of
`id - num_frozen_embeddings` otherwise. -/
theorem get_partially_trainable_embedding_selects (num_frozen_embeddings : ℤ)
    (embedding learnable_embedding : ℤ → ℤ) (x : ℤ) :
    ((mask_orig num_frozen_embeddings x = 1 ∧ mask_new num_frozen_embeddings x = 0)
      ∨ (mask_orig num_frozen_embeddings x = 0 ∧ mask_new num_frozen_embeddings x = 1))
    ∧ get_partially_trainable_embedding num_frozen_embeddings embedding
        learnable_embedding x
      = (if x < num_frozen_embeddings then embedding x
         else learnable_embedding (x - num_frozen_embeddings)) := by
  rcases lt_or_le x num_frozen_embeddings with h | h
  · have hx : x ≤ num_frozen_embeddings - 1 := by omega
    refine ⟨Or.inl ⟨?_, ?_⟩, ?_⟩
    · simp [mask_orig, not_le.mpr h]
    · simp [mask_new, h]
    · simp [get_partially_trainable_embedding, mask_orig, mask_new, h, not_le.mpr h,
        min_eq_left hx]
  · have hx : num_frozen_embeddings - 1 ≤ x := by omega
    have hmax : max x (num_frozen_embeddings - 1 + 1) = x := by
      rw [max_eq_left]; omega
    refine ⟨Or.inr ⟨?_, ?_⟩, ?_⟩
    · simp [mask_orig, h]
    · simp [mask_new, not_lt.mpr h]
    · simp [get_partially_trainable_embedding, mask_orig, mask_new, h, not_lt.mpr h,
        min_eq_right hx, hmax]

/-- Claim C4: a truthy `config.fp8` other than `"e4m3"` or `"hybrid"` makes
`CrossAttentionTransformerBlock.forward` raise
`ValueError("E4M3 and HYBRID are the only supported FP8 formats.")` without
executing any transformer layer; `"e4m3"`/`"hybrid"` run the layers inside
the corresponding FP8 autocast context, and an unset `config.fp8` runs them
in a null context. -/
theorem crossAttentionBlock_fp8_validation {H : Type} (s : String)
    (layers : List (H → H)) (hidden_states : H) :
    (fp8Truthy (some s) = true ∧ s ≠ "e4m3" ∧ s ≠ "hybrid" →
        crossAttentionBlock_forward_fp8 (some s) layers hidden_states
          = .error "E4M3 and HYBRID are the only supported FP8 formats.")
    ∧ crossAttentionBlock_forward_fp8 (some "e4m3") layers hidden_states
        = .ok (.fp8_autocast .E4M3, runLayers layers hidden_states)
    ∧ crossAttentionBlock_forward_fp8 (some "hybrid") layers hidden_states
        = .ok (.fp8_autocast .HYBRID, runLayers layers hidden_states)
    ∧ crossAttentionBlock_forward_fp8 none layers hidden_states
        = .ok (.nullcontext, runLayers layers hidden_states) := by
  refine ⟨?_, rfl, rfl, rfl⟩
  rintro ⟨ht, h1, h2⟩
  have hne : ¬ (s = "") := by simpa [fp8Truthy] using ht
  simp [crossAttentionBlock_forward_fp8, selectFp8Context, hne, h1, h2]

/-- Claim C9: for every cut carrying a custom `system_prompt`, `gemma1`
constructs a first turn with role `"system_and_user"`, which is not among
the keys of `GemmaPromptFormatter.TEMPLATE` (whose only roles are `"user"`
and `"assistant"`). -/
theorem gemma1_system_and_user_not_a_template_role (cut : LhotseCut)
    (system_prompt : String) (h : cut.system_prompt = some system_prompt) :
    (gemma1Turns cut).head?.map PromptTurn.role = some "system_and_user"
    ∧ "system_and_user" ∉ gemmaTemplateRoles
    ∧ gemmaTemplateRoles = ["user", "assistant"] := by
  refine ⟨?_, by decide, by decide⟩
  cases hsup : cut.supervision_text <;> simp [gemma1Turns, h, hsup]

/-- Witness for C9 at a concrete cut with a custom system prompt. -/
theorem gemma1_system_and_user_not_a_template_role_witness :
    (⟨none, none, "describe the audio", some "be brief", none⟩ :
        LhotseCut).system_prompt = some "be brief"
    ∧ ((gemma1Turns ⟨none, none, "describe the audio", some "be brief", none⟩).head?.map
          PromptTurn.role = some "system_and_user"
        ∧ "system_and_user" ∉ gemmaTemplateRoles
        ∧ gemmaTemplateRoles = ["user", "assistant"]) :=
  ⟨rfl, gemma1_system_and_user_not_a_template_role _ "be brief" rfl⟩

/-- Claim C7: `GemmaPromptFormatter` renders every user turn as
`"<start_of_turn>user\n" + message + "<end_of_turn>\n<start_of_turn>model\n"`
and every assistant turn as `message + "<end_of_turn>\n"`, with BOS and EOS
insertion enabled; and `gemma1` (on a cut without a system prompt) selects
the user message as the custom `context` field if present, else the custom
`question` field, else `default_context`, appending an assistant turn
exactly when the cut's first supervision text is not `None`. -/
theorem gemmaPromptFormatter_gemma1_format (message : String) (cut : LhotseCut)
    (h : cut.system_prompt = none) :
    gemmaUserTemplate
      = "<start_of_turn>user\n" ++ "|message|" ++ "<end_of_turn>\n<start_of_turn>model\n"
    ∧ renderMessageSlot "<start_of_turn>user\n" "<end_of_turn>\n<start_of_turn>model\n"
        message
      = "<start_of_turn>user\n" ++ message ++ "<end_of_turn>\n<start_of_turn>model\n"
    ∧ gemmaAssistantTemplate = "|message|" ++ "<end_of_turn>\n"
    ∧ renderMessageSlot "" "<end_of_turn>\n" message = message ++ "<end_of_turn>\n"
    ∧ gemmaInsertBos = true
    ∧ gemmaInsertEos = true
    ∧ gemma1Turns cut
      = ({ role := "user",
           slots := [("message", cut.context.getD (cut.question.getD cut.default_context))] }
          :: (match cut.supervision_text with
              | some answer => [{ role := "assistant", slots := [("message", answer)] }]
              | none => [])) := by
  have hctx : gemma1SelectContext cut
      = cut.context.getD (cut.question.getD cut.default_context) := by
    cases hc : cut.context <;> cases hq : cut.question <;>
      simp [gemma1SelectContext, hc, hq]
  have hempty : renderMessageSlot "" "<end_of_turn>\n" message
      = message ++ "<end_of_turn>\n" := by
    cases message
    rfl
  refine ⟨by decide, rfl, by decide, hempty, rfl, rfl, ?_⟩
  cases hsup : cut.supervision_text <;> simp [gemma1Turns, h, hsup, hctx]

/-- Witness for C7 at a concrete message and cut. -/
theorem gemmaPromptFormatter_gemma1_format_witness :
    (⟨none, some "what is said?", "transcribe", none, some "hello"⟩ :
        LhotseCut).system_prompt = none
    ∧ (gemmaUserTemplate
        = "<start_of_turn>user\n" ++ "|message|" ++ "<end_of_turn>\n<start_of_turn>model\n"
      ∧ renderMessageSlot "<start_of_turn>user\n" "<end_of_turn>\n<start_of_turn>model\n"
          "what is said?"
        = "<start_of_turn>user\n" ++ "what is said?"
            ++ "<end_of_turn>\n<start_of_turn>model\n"
      ∧ gemmaAssistantTemplate = "|message|" ++ "<end_of_turn>\n"
      ∧ renderMessageSlot "" "<end_of_turn>\n" "what is said?"
          = "what is said?" ++ "<end_of_turn>\n"
      ∧ gemmaInsertBos = true
      ∧ gemmaInsertEos = true
      ∧ gemma1Turns ⟨none, some "what is said?", "transcribe", none, some "hello"⟩
        = ({ role := "user",
             slots := [("message",
               (Option.getD (none : Option String)
                 (Option.getD (some "what is said?") "transcribe")))] }
            :: [{ role := "assistant", slots := [("message", "hello")] }])) :=
  ⟨rfl, gemmaPromptFormatter_gemma1_format "what is said?" _ rfl⟩

/-- Claim C1 (code evaluated at the failing input): with `gate_attn = 0` and
`gate_ffn = 1`, identity layernorms, pass-through bias-dropout-add and an
MLP returning 1, the source forward returns hidden states 0 — the MLP
branch was scaled by `tanh(gate_attn) = 0` — while the claimed gating
(`tanh(gate_ffn)`, the gating the source's own unused `_gate_ffn`
assignment and the dummy layer's docstring describe) returns `tanh 1 ≠ 0`:
the two disagree, so the MLP output tuple is NOT scaled by
`tanh(gate_ffn)`. -/
theorem crossAttentionTransformerLayer_mlp_gated_by_gate_attn :
    crossAttentionTransformerLayer_forward 0 1 id (fun x => [some x])
        (fun t r => r + (t.headD none).getD 0) id (fun _ => [some 1])
        (fun t r => r + (t.headD none).getD 0) 0 = (0, none)
    ∧ crossAttentionTransformerLayer_forward_claimed 0 1 id (fun x => [some x])
        (fun t r => r + (t.headD none).getD 0) id (fun _ => [some 1])
        (fun t r => r + (t.headD none).getD 0) 0 = (Real.tanh 1, none)
    ∧ crossAttentionTransformerLayer_forward 0 1 id (fun x => [some x])
        (fun t r => r + (t.headD none).getD 0) id (fun _ => [some 1])
        (fun t r => r + (t.headD none).getD 0) 0
      ≠ crossAttentionTransformerLayer_forward_claimed 0 1 id (fun x => [some x])
        (fun t r => r + (t.headD none).getD 0) id (fun _ => [some 1])
        (fun t r => r + (t.headD none).getD 0) 0 := by
  have htanh : (0 : ℝ) < Real.tanh 1 := by
    rw [Real.tanh_eq_sinh_div_cosh]
    exact div_pos (Real.sinh_pos_iff.mpr one_pos) (Real.cosh_pos 1)
  have hcode : crossAttentionTransformerLayer_forward 0 1 id (fun x => [some x])
      (fun t r => r + (t.headD none).getD 0) id (fun _ => [some 1])
      (fun t r => r + (t.headD none).getD 0) 0 = (0, none) := by
    simp [crossAttentionTransformerLayer_forward, gateOutputTuple, Real.tanh_zero]
  have hclaimed : crossAttentionTransformerLayer_forward_claimed 0 1 id (fun x => [some x])
      (fun t r => r + (t.headD none).getD 0) id (fun _ => [some 1])
      (fun t r => r + (t.headD none).getD 0) 0 = (Real.tanh 1, none) := by
    simp [crossAttentionTransformerLayer_forward_claimed, gateOutputTuple, Real.tanh_zero]
  refine ⟨hcode, hclaimed, ?_⟩
  rw [hcode, hclaimed]
  intro hcontra
  exact absurd (congrArg Prod.fst hcontra) (by simpa using htanh.ne)

/-- Claim C3: for a positive inverse frequency `f` with wavelength
`w = 2π/f` (and wavelength bands in their intended order),
`apply_rope_scaling` returns `f` unchanged when
`w < old_context_len/high_freq_factor`; returns `f/factor` when
`w > old_context_len/low_freq_factor`; and otherwise returns
`(1 - s)*(f/factor) + s*f` with
`s = (old_context_len/w - low_freq_factor)/(high_freq_factor - low_freq_factor)`. -/
theorem apply_rope_scaling_piecewise (inv_freq factor low_freq_factor high_freq_factor
    old_context_len : ℝ) (hf : 0 < inv_freq)
    (hwl : old_context_len / high_freq_factor ≤ old_context_len / low_freq_factor) :
    apply_rope_scaling inv_freq factor low_freq_factor high_freq_factor old_context_len
      = (if 2 * Real.pi / inv_freq < old_context_len / high_freq_factor then inv_freq
         else if 2 * Real.pi / inv_freq > old_context_len / low_freq_factor then
           inv_freq / factor
         else
           (1 - (old_context_len / (2 * Real.pi / inv_freq) - low_freq_factor)
               / (high_freq_factor - low_freq_factor)) * (inv_freq / factor)
             + (old_context_len / (2 * Real.pi / inv_freq) - low_freq_factor)
               / (high_freq_factor - low_freq_factor) * inv_freq) := by
  unfold apply_rope_scaling
  by_cases h1 : 2 * Real.pi / inv_freq < old_context_len / high_freq_factor
  · have h2 : ¬ (2 * Real.pi / inv_freq > old_context_len / low_freq_factor) :=
      not_lt.mpr (le_trans (le_of_lt h1) hwl)
    have hmed : ¬ (¬ (2 * Real.pi / inv_freq < old_context_len / high_freq_factor) ∧
        ¬ (old_context_len / low_freq_factor < 2 * Real.pi / inv_freq)) :=
      fun hm => hm.1 h1
    simp only [gt_iff_lt, if_neg h2, if_pos h1, if_neg hmed]
  · by_cases h2 : 2 * Real.pi / inv_freq > old_context_len / low_freq_factor
    · have hmed : ¬ (¬ (2 * Real.pi / inv_freq < old_context_len / high_freq_factor) ∧
          ¬ (old_context_len / low_freq_factor < 2 * Real.pi / inv_freq)) :=
        fun hm => hm.2 h2
      simp only [gt_iff_lt, if_pos h2, if_neg h1, if_neg hmed]
    · have hmed : (¬ (2 * Real.pi / inv_freq < old_context_len / high_freq_factor) ∧
          ¬ (old_context_len / low_freq_factor < 2 * Real.pi / inv_freq)) := ⟨h1, h2⟩
      simp only [gt_iff_lt, if_neg h2, if_neg h1, if_pos hmed]
      ring

/-- Witness for C3 at `inv_freq = 1` and the source's default parameters. -/
theorem apply_rope_scaling_piecewise_witness :
    (0 : ℝ) < 1
    ∧ (8192 : ℝ) / 4 ≤ (8192 : ℝ) / 1
    ∧ apply_rope_scaling 1 8 1 4 8192
      = (if 2 * Real.pi / 1 < (8192 : ℝ) / 4 then (1 : ℝ)
         else if 2 * Real.pi / 1 > (8192 : ℝ) / 1 then (1 : ℝ) / 8
         else
           (1 - ((8192 : ℝ) / (2 * Real.pi / 1) - 1) / (4 - 1)) * ((1 : ℝ) / 8)
             + ((8192 : ℝ) / (2 * Real.pi / 1) - 1) / (4 - 1) * 1) :=
  ⟨one_pos, by norm_num,
    apply_rope_scaling_piecewise 1 8 1 4 8192 one_pos (by norm_num)⟩

/-- Claim C2 (code evaluated at a failing input): with two text layers and
`fusion_schedule = [0]`, `__init__` builds `[xattnLayer 1, dummyLayer]` as
the claim describes, but the non-CUDA-graph forward does NOT run
dummy-then-text-layer: at the dummy slot (index 1) the assignment
`hidden_states, context = xattn_layer(...)` (language.py 388) receives the
dummy's bare-Tensor return (language.py 552, which lacks the `, None` of
`CrossAttentionTransformerLayer.forward`, language.py 540) and raises
`ValueError` for any hidden-states Tensor whose dim-0 size is not 2
(`unpackTensor = none`), whereas the claim's per-index schedule passes the
hidden states through the dummy and finishes (here with value 1). -/
theorem crossAttentionBlock_dummy_unpack_valueerror :
    buildXattnAndDummyLayers [0] 2 = [.xattnLayer 1, .dummyLayer]
    ∧ crossAttentionBlock_forward (H := ℤ) (C := ℤ) (fun _ _ h => h + 1)
        (fun _ => none) [0] (fun _ => 0) [fun h => h, fun h => h] 0
      = .error "ValueError: unpacking a bare Tensor into (hidden_states, context)"
    ∧ fusionScheduleRun (H := ℤ) (C := ℤ) (fun _ _ h => h + 1) [0] (fun _ => 0)
        [fun h => h, fun h => h] 0 0 = 1 := by
  refine ⟨?_, rfl, rfl⟩
  simp [buildXattnAndDummyLayers, List.range_succ]

/-- Claim C6: `_build_dataset` raises `ValueError` whenever
`data_cfg.file_names` is not a `ListConfig`; with `is_train`, it raises
`ValueError` whenever `concat_sampling_probabilities` is `None` or not a
`ListConfig`, whenever its length differs from that of `file_names`, or
whenever `trainer.max_steps` is `None` or not positive; when all checks
pass with `is_train` it returns a single `BlendableDataset` whose requested
sample count is `trainer.max_steps * data_cfg.global_batch_size`, and with
`is_train` false it returns a list of per-file datasets. -/
theorem _build_dataset_validation
    (getWeightsAndNumSamples : List (ℚ ⊕ String) → List ℕ → List (List ℕ))
    (data_cfg : EmbeddingDataCfg) (position_embedding_type : Option String)
    (max_position_embeddings : ℕ) (trainer_max_steps : Option ℤ) (is_train : Bool) :
    (data_cfg.file_names = .otherConfig →
      _build_dataset getWeightsAndNumSamples data_cfg position_embedding_type
          max_position_embeddings trainer_max_steps is_train
        = .error .fileNamesNotAList)
    ∧ (∀ file_names, data_cfg.file_names = .listConfig file_names →
        ((data_cfg.concat_sampling_probabilities = none
            ∨ data_cfg.concat_sampling_probabilities = some .otherConfig) →
          _build_dataset getWeightsAndNumSamples data_cfg position_embedding_type
              max_position_embeddings trainer_max_steps true
            = .error .badConcatSamplingProbabilities)
        ∧ (∀ probs,
            data_cfg.concat_sampling_probabilities = some (.listConfig probs) →
            (probs.length ≠ file_names.length →
              _build_dataset getWeightsAndNumSamples data_cfg position_embedding_type
                  max_position_embeddings trainer_max_steps true
                = .error .concatProbsLengthMismatch)
            ∧ (probs.length = file_names.length →
                (trainer_max_steps = none →
                  _build_dataset getWeightsAndNumSamples data_cfg position_embedding_type
                      max_position_embeddings trainer_max_steps true
                    = .error .badMaxSteps)
                ∧ (∀ max_steps : ℤ, trainer_max_steps = some max_steps →
                    (max_steps ≤ 0 →
                      _build_dataset getWeightsAndNumSamples data_cfg
                          position_embedding_type max_position_embeddings
                          trainer_max_steps true
                        = .error .badMaxSteps)
                    ∧ (0 < max_steps →
                        _build_dataset getWeightsAndNumSamples data_cfg
                            position_embedding_type max_position_embeddings
                            trainer_max_steps true
                          = .ok (.blendable
                              ((file_names.zip (getWeightsAndNumSamples
                                  ((probs.zip file_names).flatMap fun wf =>
                                    [Sum.inl wf.1, Sum.inr wf.2])
                                  [max_steps.toNat * data_cfg.global_batch_size])).map
                                fun fn =>
                                  { file_path := fn.1,
                                    max_seq_length := adjusted_max_seq_length
                                      position_embedding_type data_cfg.max_seq_length
                                      max_position_embeddings,
                                    max_num_samples := some (fn.2.headD 0) })
                              probs
                              ((getWeightsAndNumSamples
                                  ((probs.zip file_names).flatMap fun wf =>
                                    [Sum.inl wf.1, Sum.inr wf.2])
                                  [max_steps.toNat * data_cfg.global_batch_size]).map
                                fun x => x.headD 0).sum)))))
        ∧ _build_dataset getWeightsAndNumSamples data_cfg position_embedding_type
              max_position_embeddings trainer_max_steps false
          = .ok (.perFile (file_names.map fun f =>
              { file_path := f,
                max_seq_length := adjusted_max_seq_length position_embedding_type
                  data_cfg.max_seq_length max_position_embeddings,
                max_num_samples := none }))) := by
  constructor
  · intro hfn
    simp [_build_dataset, hfn]
  · intro file_names hfn
    refine ⟨?_, ?_, ?_⟩
    · rintro (hcsp | hcsp) <;> simp [_build_dataset, hfn, hcsp]
    · intro probs hcsp
      constructor
      · intro hlen
        simp [_build_dataset, hfn, hcsp, hlen]
      · intro hlen
        constructor
        · intro hms
          simp [_build_dataset, hfn, hcsp, hlen, hms]
        · intro max_steps hms
          constructor
          · intro hle
            simp [_build_dataset, hfn, hcsp, hlen, hms, hle]
          · intro hpos
            simp [_build_dataset, hfn, hcsp, hlen, hms, not_le.mpr hpos]
    · simp [_build_dataset, hfn]

/-- Rows of a triple batch at stride-3 offset 0: the queries. -/
theorem strideSlice3_zero_flattenTriples :
    ∀ examples : List (Vec × Vec × Vec),
      strideSlice3 0 (flattenTriples examples) = examples.map fun e => e.1
  | [] => rfl
  | e :: examples =>
      congrArg (List.cons e.1) (strideSlice3_zero_flattenTriples examples)

/-- Rows of a triple batch at stride-3 offset 1: the positive documents. -/
theorem strideSlice3_one_flattenTriples :
    ∀ examples : List (Vec × Vec × Vec),
      strideSlice3 1 (flattenTriples examples) = examples.map fun e => e.2.1
  | [] => rfl
  | [_] => rfl
  | e :: e' :: examples =>
      congrArg (List.cons e.2.1) (strideSlice3_one_flattenTriples (e' :: examples))

/-- Rows of a triple batch at stride-3 offset 2: the negative documents. -/
theorem strideSlice3_two_flattenTriples :
    ∀ examples : List (Vec × Vec × Vec),
      strideSlice3 2 (flattenTriples examples) = examples.map fun e => e.2.2
  | [] => rfl
  | [_] => rfl
  | e :: e' :: examples =>
      congrArg (List.cons e.2.2) (strideSlice3_two_flattenTriples (e' :: examples))

/-- Zipping two maps of the same list pointwise. -/
theorem zipWith_map_same {α β γ δ : Type*} (f : β → γ → δ) (g : α → β) (h : α → γ) :
    ∀ l : List α, List.zipWith f (l.map g) (l.map h) = l.map fun x => f (g x) (h x)
  | [] => rfl
  | x :: xs => congrArg (List.cons (f (g x) (h x))) (zipWith_map_same f g h xs)

/-- Dot product of elementwise-scaled vectors. -/
theorem dotProduct_map_div :
    ∀ (a b : Vec) (c d : ℝ),
      dotProduct (a.map fun x => x / c) (b.map fun x => x / d)
        = dotProduct a b / (c * d)
  | [], b, c, d => by simp [dotProduct]
  | a :: as, [], c, d => by simp [dotProduct]
  | a :: as, b :: bs, c, d => by
      have ih := dotProduct_map_div as bs c d
      simp only [List.map_cons, dotProduct, List.zipWith_cons_cons, List.sum_cons] at ih ⊢
      rw [ih, div_mul_div_comm, add_div]

/-- A sum of squares is nonnegative. -/
theorem sum_map_sq_nonneg : ∀ v : Vec, 0 ≤ (v.map fun x => x * x).sum
  | [] => le_refl 0
  | x :: xs => by
      simp only [List.map_cons, List.sum_cons]
      exact add_nonneg (mul_self_nonneg x) (sum_map_sq_nonneg xs)

/-- The L2 norm is nonnegative. -/
theorem l2norm_nonneg (v : Vec) : 0 ≤ l2norm v := Real.sqrt_nonneg _

/-- Dividing a sum elementwise. -/
theorem sum_map_div (c : ℝ) : ∀ (l : List ℝ), ((l.map fun x => x / c).sum) = l.sum / c
  | [] => by simp
  | x :: xs => by
      simp only [List.map_cons, List.sum_cons, sum_map_div c xs, add_div]

/-- The L2 norm of an elementwise-scaled vector. -/
theorem l2norm_map_div (v : Vec) (c : ℝ) (hc : 0 ≤ c) :
    l2norm (v.map fun x => x / c) = l2norm v / c := by
  unfold l2norm
  have h1 : List.map (fun x => x * x) (List.map (fun x => x / c) v)
      = List.map (fun y => y / (c * c)) (List.map (fun x => x * x) v) := by
    rw [List.map_map, List.map_map]
    exact congrArg (fun f => List.map f v)
      (funext fun x => by show x / c * (x / c) = x * x / (c * c); rw [div_mul_div_comm])
  rw [h1, sum_map_div, Real.sqrt_div (sum_map_sq_nonneg v), Real.sqrt_mul_self hc]

/-- Normalizing a vector of positive norm gives a unit vector. -/
theorem l2norm_l2normalize (v : Vec) (hv : 0 < l2norm v) :
    l2norm (l2normalize v) = 1 := by
  unfold l2normalize
  rw [l2norm_map_div v (l2norm v) (le_of_lt hv), div_self (ne_of_gt hv)]

/-- `cosineEps` is positive and below 1. -/
theorem cosineEps_bounds : 0 < cosineEps ∧ cosineEps ≤ 1 := by
  norm_num [cosineEps]

/-- As long as the product of the two norms is at least `eps`, the cosine
similarity of the L2-normalized vectors equals the cosine similarity of the
originals (the normalization the source applies before the positive cosine
similarity changes nothing). -/
theorem cosine_similarity_normalize (q p : Vec)
    (h : cosineEps ≤ l2norm q * l2norm p) :
    cosine_similarity (l2normalize q) (l2normalize p) = cosine_similarity q p := by
  have hqp : 0 < l2norm q * l2norm p := lt_of_lt_of_le cosineEps_bounds.1 h
  have hq : 0 < l2norm q := by
    rcases (l2norm_nonneg q).lt_or_eq with h' | h'
    · exact h'
    · rw [← h'] at hqp
      simp at hqp
  have hp : 0 < l2norm p := by
    rcases (l2norm_nonneg p).lt_or_eq with h' | h'
    · exact h'
    · rw [← h'] at hqp
      simp at hqp
  unfold cosine_similarity
  rw [l2norm_l2normalize q hq, l2norm_l2normalize p hp]
  rw [show l2normalize q = q.map fun x => x / l2norm q from rfl,
    show l2normalize p = p.map fun x => x / l2norm p from rfl,
    dotProduct_map_div, one_mul, max_eq_left cosineEps_bounds.2, div_one,
    max_eq_left h]

/-- Pointwise-equal maps over the same list are equal. -/
theorem map_congr_mem {α β : Type*} {f g : α → β} :
    ∀ {l : List α}, (∀ a ∈ l, f a = g a) → l.map f = l.map g
  | [], _ => rfl
  | x :: xs, h => by
      simp only [List.map_cons]
      rw [h x (List.mem_cons_self x xs), map_congr_mem fun a ha =>
        h a (List.mem_cons_of_mem x ha)]

/-- Claim C5: for a batch whose `loss_mask` selects, per example, exactly
three hidden-state positions in the order query, positive document,
negative document (so the gathered EOS rows are the flattened triples), and
`num_soft_negatives == 0`, `loss_func` takes the rows at stride-3 offsets
0, 1, 2, computes the temperature-scaled cosine similarities
(query, positive) and (query, negative), and returns the cross-entropy of
the two-column similarity matrix [positive, negative] against target class
0, together with the L2-normalized query and positive-document
embeddings. -/
theorem loss_func_contrastive (temperature : ℝ)
    (examples : List (Vec × Vec × Vec)) (loss_mask : ℕ → ℕ)
    (output_tensor : ℕ → ℕ → Vec)
    (hgather : gatherEosTensors (3 * examples.length) loss_mask output_tensor
      = flattenTriples examples)
    (hnorm : ∀ e ∈ examples, cosineEps ≤ l2norm e.1 * l2norm e.2.1) :
    loss_func temperature (3 * examples.length) loss_mask output_tensor
      = contrastiveLossSpec temperature examples := by
  have hpos : (examples.map fun e =>
      cosine_similarity (l2normalize e.1) (l2normalize e.2.1) * (1 / temperature))
      = examples.map fun e => cosine_similarity e.1 e.2.1 * (1 / temperature) :=
    map_congr_mem fun e he => by rw [cosine_similarity_normalize e.1 e.2.1 (hnorm e he)]
  simp only [loss_func, contrastiveLossSpec]
  rw [hgather, strideSlice3_zero_flattenTriples, strideSlice3_one_flattenTriples,
    strideSlice3_two_flattenTriples, zipWith_map_same, List.map_map, List.map_map,
    zipWith_map_same]
  simp only [Function.comp]
  rw [hpos]
  simp only [Function.comp_def]

/-- Witness for C5 at a one-example batch of one-dimensional unit rows. -/
theorem loss_func_contrastive_witness :
    gatherEosTensors (3 * ([([1], [1], [1])] : List (Vec × Vec × Vec)).length)
        (fun _ => 0) (fun _ _ => [1])
      = flattenTriples [([1], [1], [1])]
    ∧ (∀ e ∈ ([([1], [1], [1])] : List (Vec × Vec × Vec)),
        cosineEps ≤ l2norm e.1 * l2norm e.2.1)
    ∧ loss_func 1 (3 * ([([1], [1], [1])] : List (Vec × Vec × Vec)).length)
        (fun _ => 0) (fun _ _ => [1])
      = contrastiveLossSpec 1 [([1], [1], [1])] := by
  have hone : l2norm [(1 : ℝ)] = 1 := by
    simp [l2norm]
  have hgather : gatherEosTensors (3 * ([([1], [1], [1])] : List (Vec × Vec × Vec)).length)
      (fun _ => 0) (fun _ _ => [1]) = flattenTriples [([1], [1], [1])] := rfl
  have hnorm : ∀ e ∈ ([([1], [1], [1])] : List (Vec × Vec × Vec)),
      cosineEps ≤ l2norm e.1 * l2norm e.2.1 := by
    intro e he
    simp only [List.mem_singleton] at he
    subst he
    rw [hone]
    norm_num [cosineEps]
  exact ⟨hgather, hnorm, loss_func_contrastive 1 _ _ _ hgather hnorm⟩

end NeMo
